import Mathlib

/-
Verification of the vSphere API session client (src/common.rs, src/cis.rs).

The client is shallowly embedded: each operation is a pure function from the
session state and the outcome of its single HTTP round trip to the returned
result and the new session state.  The HTTP outcome is either a transport
error or a response carrying the status code and the results of the two JSON
deserialization attempts the code may perform on the body.
-/

namespace VSphere

/-- Embedding of the api_url! macro of src/common.rs: it expands to
format!("https://{}/rest/{}", hostname, endpoint). -/
def api_url (hostname endpoint : String) : String :=
  "https://" ++ hostname ++ "/rest/" ++ endpoint

/-- Generic value container, struct ApiResponse<T> of src/common.rs. -/
structure ApiResponse (T : Type) where
  value : T
deriving DecidableEq, Repr

/-- Login status as returned from the vSphere API, struct LoginStatus of
src/cis.rs.  The two chrono DateTime<Utc> fields are opaque to the client
logic and are modelled as integer timestamps. -/
structure LoginStatus where
  user : String
  created_time : Int
  last_accessed_time : Int
deriving DecidableEq, Repr

/-- Cis module error type, enum Error of src/cis.rs.  Reqwest stands for the
reqwest::Error variant, produced both by send() failures and by failing
resp.json() body deserialization (both convert via From). -/
inductive Error where
  | Reqwest
  | Unauthorized
  | UnexpectedStatusCode (code : Nat)
deriving DecidableEq, Repr

/-- The session state, struct Session of src/cis.rs.  The reqwest::Client
field is represented by the one configuration bit it is built from
(danger_accept_invalid_certs). -/
structure Session where
  hostname : String
  insecure_certs : Bool
  session_id : Option String
  logged_in_user : Option String
deriving DecidableEq, Repr

/-- An HTTP response as the client observes it: the status code (as u16) and
the outcomes of the two body deserializations the code may attempt
(resp.json::<ApiResponse<String>>() and resp.json::<ApiResponse<LoginStatus>>());
none models a deserialization failure, which the code surfaces as a
reqwest::Error. -/
structure Response where
  status : Nat
  json_api_string : Option (ApiResponse String)
  json_api_login_status : Option (ApiResponse LoginStatus)
deriving DecidableEq, Repr

/-- Outcome of send().await on a request: a transport-level reqwest error, or
a response. -/
inductive SendResult where
  | transport_error
  | response (resp : Response)
deriving DecidableEq, Repr

/-- An outgoing request as the client builds it: method, URL and headers. -/
structure Request where
  method : String
  url : String
  headers : List (String × String)
deriving DecidableEq, Repr

/-- Session::new of src/cis.rs: stores the hostname, builds the client from
the insecure_certs flag, and starts with no session id and no logged in
user. -/
def Session.new (hostname : String) (insecure_certs : Bool) : Session :=
  { hostname := hostname
    insecure_certs := insecure_certs
    session_id := none
    logged_in_user := none }

/-- Session::login of src/cis.rs, as a function of the HTTP outcome of its
POST to api_url!(hostname, "/com/vmware/cis/session").  Returns the
Result<bool, Error> and the session state after the call. -/
def Session.login (s : Session) (username : String) (r : SendResult) :
    Except Error Bool × Session :=
  match r with
  | .transport_error => (.error .Reqwest, s)
  | .response resp =>
    if resp.status = 200 then
      match resp.json_api_string with
      | none => (.error .Reqwest, s)
      | some body =>
        (.ok true,
          { s with session_id := some body.value, logged_in_user := some username })
    else if resp.status = 401 then
      (.ok false, s)
    else
      (.error (.UnexpectedStatusCode resp.status), s)

/-- Session::authenticated_request of src/cis.rs: builds a request carrying
the vmware-api-session-id header, whose value is the session id if set and
the empty string otherwise. -/
def Session.authenticated_request (s : Session) (method : String) (url : String) :
    Request :=
  { method := method
    url := url
    headers :=
      [("vmware-api-session-id",
        match s.session_id with
        | some session_id => session_id
        | none => "")] }

/-- The URL Session::login requests:
api_url!(self.hostname, "/com/vmware/cis/session"). -/
def Session.login_request_url (s : Session) : String :=
  api_url s.hostname "/com/vmware/cis/session"

/-- The request Session::login_status sends: an authenticated POST to
api_url!(self.hostname, "/com/vmware/cis/session?~action=get"). -/
def Session.login_status_request (s : Session) : Request :=
  s.authenticated_request "POST" (api_url s.hostname "/com/vmware/cis/session?~action=get")

/-- The request Session::logout sends: an authenticated DELETE to
api_url!(self.hostname, "/com/vmware/cis/session"). -/
def Session.logout_request (s : Session) : Request :=
  s.authenticated_request "DELETE" (api_url s.hostname "/com/vmware/cis/session")

/-- Session::login_status of src/cis.rs, as a function of the HTTP outcome of
its request.  Returns the Result<LoginStatus, Error> and the session state
after the call. -/
def Session.login_status (s : Session) (r : SendResult) :
    Except Error LoginStatus × Session :=
  match r with
  | .transport_error => (.error .Reqwest, s)
  | .response resp =>
    if resp.status = 200 then
      match resp.json_api_login_status with
      | none => (.error .Reqwest, s)
      | some body => (.ok body.value, s)
    else if resp.status = 401 then
      (.error .Unauthorized, s)
    else
      (.error (.UnexpectedStatusCode resp.status), s)

/-- Session::logout of src/cis.rs, as a function of the HTTP outcome of its
request.  Only the status code of the response is inspected.  Returns the
Result<(), Error> and the session state after the call. -/
def Session.logout (s : Session) (r : SendResult) :
    Except Error Unit × Session :=
  match r with
  | .transport_error => (.error .Reqwest, s)
  | .response resp =>
    if resp.status = 200 then
      (.ok (), { s with session_id := none, logged_in_user := none })
    else if resp.status = 401 then
      (.ok (), s)
    else
      (.error (.UnexpectedStatusCode resp.status), s)

/-- One client operation together with the HTTP outcome the world answers it
with. -/
inductive Op where
  | login (username : String) (r : SendResult)
  | login_status (r : SendResult)
  | logout (r : SendResult)

/-- The session state after running one operation. -/
def Session.step (s : Session) (op : Op) : Session :=
  match op with
  | .login username r => (s.login username r).2
  | .login_status r => (s.login_status r).2
  | .logout r => (s.logout r).2

/-- The authentication-state invariant of the spec:
session_token.is_some() == logged_in_user.is_some(). -/
def Session.auth_invariant (s : Session) : Prop :=
  s.session_id.isSome = s.logged_in_user.isSome

/-- A concrete authenticated session, used as test fixture. -/
def s_auth : Session :=
  { hostname := "vc.example.com"
    insecure_certs := true
    session_id := some "tok123"
    logged_in_user := some "alice" }

/-- A concrete 401 response with an empty (unparseable) body. -/
def resp401 : Response :=
  { status := 401, json_api_string := none, json_api_login_status := none }

/-- A concrete 200 login response whose body parses as {value: "tok123"}. -/
def resp200_token : Response :=
  { status := 200
    json_api_string := some { value := "tok123" }
    json_api_login_status := none }

/-- C1: the claim says logout on a 401 response returns Ok(()) AND clears
session_token and logged_in_user, as on the 200 path.  The code does return
Ok(()) but leaves both fields untouched on the 401 arm: on an authenticated
session the token survives the call, refuting the clearing part of the
claim at this concrete input. -/
theorem C1_counterexample :
    (s_auth.logout (.response resp401)).1 = .ok () ∧
    ¬ ((s_auth.logout (.response resp401)).2.session_id = none ∧
       (s_auth.logout (.response resp401)).2.logged_in_user = none) := by
  constructor
  · rfl
  · intro h
    exact absurd h.1 (by decide)

/-- C1 (amended): for every logout call whose HTTP response has status 401,
logout returns Ok(()) and the session state is exactly what it was before
the call; clearing of session_token and logged_in_user happens only on the
200 path. -/
theorem C1_logout_401_preserves_state (s : Session) (resp : Response)
    (h : resp.status = 401) :
    (s.logout (.response resp)).1 = .ok () ∧
    (s.logout (.response resp)).2 = s := by
  simp [Session.logout, h]

/-- C1 witness: the amended statement evaluated on the concrete fixture. -/
theorem C1_logout_401_preserves_state_witness :
    (s_auth.logout (.response resp401)).1 = .ok () ∧
    (s_auth.logout (.response resp401)).2 = s_auth :=
  C1_logout_401_preserves_state s_auth resp401 rfl

/-- An initial session satisfies the authentication invariant. -/
theorem new_auth_invariant (hostname : String) (insecure_certs : Bool) :
    (Session.new hostname insecure_certs).auth_invariant := rfl

/-- Every single operation, whatever its HTTP outcome, preserves the
authentication invariant. -/
theorem step_preserves_auth_invariant (s : Session) (op : Op)
    (h : s.auth_invariant) : (s.step op).auth_invariant := by
  cases op with
  | login username r =>
    cases r with
    | transport_error => exact h
    | response resp =>
      simp only [Session.step, Session.login]
      split
      · cases hj : resp.json_api_string with
        | none => simpa [hj] using h
        | some body => simp [hj, Session.auth_invariant]
      · split
        · exact h
        · exact h
  | login_status r =>
    cases r with
    | transport_error => exact h
    | response resp =>
      simp only [Session.step, Session.login_status]
      split
      · cases hj : resp.json_api_login_status with
        | none => simpa [hj] using h
        | some body => simpa [hj] using h
      · split
        · exact h
        · exact h
  | logout r =>
    cases r with
    | transport_error => exact h
    | response resp =>
      simp only [Session.step, Session.logout]
      split
      · simp [Session.auth_invariant]
      · split
        · exact h
        · exact h

/-- C2: after any sequence of operations run from a fresh session, with any
HTTP outcome for each, the session satisfies
session_token.is_some() == logged_in_user.is_some(). -/
theorem C2_auth_invariant_holds (hostname : String) (insecure_certs : Bool)
    (ops : List Op) :
    (ops.foldl Session.step (Session.new hostname insecure_certs)).auth_invariant := by
  have step_all : ∀ (l : List Op) (s : Session), s.auth_invariant →
      (l.foldl Session.step s).auth_invariant := by
    intro l
    induction l with
    | nil => intro s hs; exact hs
    | cons op l ih =>
      intro s hs
      exact ih (s.step op) (step_preserves_auth_invariant s op hs)
  exact step_all ops _ (new_auth_invariant hostname insecure_certs)

/-- C3: a login whose response has status 200 and whose body parses as the
{value: string} wrapper returns Ok(true), sets session_token to the body
value and logged_in_user to the username. -/
theorem C3_login_200 (s : Session) (username : String) (resp : Response)
    (body : ApiResponse String) (h200 : resp.status = 200)
    (hbody : resp.json_api_string = some body) :
    (s.login username (.response resp)).1 = .ok true ∧
    (s.login username (.response resp)).2.session_id = some body.value ∧
    (s.login username (.response resp)).2.logged_in_user = some username := by
  simp [Session.login, h200, hbody]

/-- C3 witness: the theorem evaluated at a fresh session and a concrete 200
response carrying token "tok123". -/
theorem C3_login_200_witness :
    ((Session.new "vc.example.com" true).login "alice" (.response resp200_token)).1
        = .ok true ∧
    ((Session.new "vc.example.com" true).login "alice" (.response resp200_token)).2.session_id
        = some "tok123" ∧
    ((Session.new "vc.example.com" true).login "alice" (.response resp200_token)).2.logged_in_user
        = some "alice" :=
  C3_login_200 (Session.new "vc.example.com" true) "alice" resp200_token
    { value := "tok123" } rfl rfl

/-- C4: a login whose response has status 401 returns Ok(false) and leaves
the session state, whatever it was, exactly unchanged. -/
theorem C4_login_401 (s : Session) (username : String) (resp : Response)
    (h : resp.status = 401) :
    (s.login username (.response resp)).1 = .ok false ∧
    (s.login username (.response resp)).2 = s := by
  simp [Session.login, h]

/-- C4 witness: the theorem evaluated on an already-authenticated session;
the prior token and user survive the rejected login. -/
theorem C4_login_401_witness :
    (s_auth.login "bob" (.response resp401)).1 = .ok false ∧
    (s_auth.login "bob" (.response resp401)).2 = s_auth :=
  C4_login_401 s_auth "bob" resp401 rfl

/-- A concrete LoginStatus value, used as test fixture. -/
def lstatus : LoginStatus :=
  { user := "alice", created_time := 1704067200, last_accessed_time := 1704067500 }

/-- A concrete 200 response whose body parses as the wrapper around a
LoginStatus. -/
def resp200_login_status : Response :=
  { status := 200
    json_api_string := none
    json_api_login_status := some { value := lstatus } }

/-- A concrete 200 response whose body parses as neither wrapper. -/
def resp200_noparse : Response :=
  { status := 200, json_api_string := none, json_api_login_status := none }

/-- A concrete 500 response. -/
def resp500 : Response :=
  { status := 500, json_api_string := none, json_api_login_status := none }

/-- login_status never changes the session state, whatever the HTTP
outcome. -/
theorem login_status_state_unchanged (s : Session) (r : SendResult) :
    (s.login_status r).2 = s := by
  cases r with
  | transport_error => rfl
  | response resp =>
    by_cases h200 : resp.status = 200
    · cases hj : resp.json_api_login_status with
      | none => simp [Session.login_status, h200, hj]
      | some body => simp [Session.login_status, h200, hj]
    · by_cases h401 : resp.status = 401
      · simp [Session.login_status, h200, h401]
      · simp [Session.login_status, h200, h401]

/-- C5: login_status returns the parsed LoginStatus on a 200 response whose
body parses, fails with Unauthorized on a 401 response, and in every case
leaves the session state unchanged. -/
theorem C5_login_status_behavior (s : Session) (r : SendResult) :
    (∀ (resp : Response) (body : ApiResponse LoginStatus),
      r = .response resp → resp.status = 200 →
      resp.json_api_login_status = some body →
      (s.login_status r).1 = .ok body.value) ∧
    (∀ resp : Response, r = .response resp → resp.status = 401 →
      (s.login_status r).1 = .error .Unauthorized) ∧
    (s.login_status r).2 = s := by
  refine ⟨?_, ?_, login_status_state_unchanged s r⟩
  · rintro resp body rfl h200 hbody
    simp [Session.login_status, h200, hbody]
  · rintro resp rfl h401
    simp [Session.login_status, h401]

/-- C5 witness: the theorem evaluated on an authenticated session with a
concrete parsed 200 response and a concrete 401 response. -/
theorem C5_login_status_behavior_witness :
    (s_auth.login_status (.response resp200_login_status)).1 = .ok lstatus ∧
    (s_auth.login_status (.response resp401)).1 = .error .Unauthorized ∧
    (s_auth.login_status (.response resp200_login_status)).2 = s_auth :=
  ⟨(C5_login_status_behavior s_auth (.response resp200_login_status)).1
      resp200_login_status { value := lstatus } rfl rfl rfl,
    (C5_login_status_behavior s_auth (.response resp401)).2.1 resp401 rfl rfl,
    (C5_login_status_behavior s_auth (.response resp200_login_status)).2.2⟩

/-- C6: the requests built by login_status and logout always carry the
vmware-api-session-id header: with value t when the session id is Some t,
and with the empty string as value (rather than omitted) when it is None. -/
theorem C6_session_header (s : Session) :
    (∀ t : String, s.session_id = some t →
      s.login_status_request.headers = [("vmware-api-session-id", t)] ∧
      s.logout_request.headers = [("vmware-api-session-id", t)]) ∧
    (s.session_id = none →
      s.login_status_request.headers = [("vmware-api-session-id", "")] ∧
      s.logout_request.headers = [("vmware-api-session-id", "")]) := by
  constructor
  · rintro t ht
    simp [Session.login_status_request, Session.logout_request,
      Session.authenticated_request, ht]
  · rintro hn
    simp [Session.login_status_request, Session.logout_request,
      Session.authenticated_request, hn]

/-- C6 witness: the theorem evaluated on an authenticated session (token
"tok123") and on a fresh unauthenticated session (empty header value). -/
theorem C6_session_header_witness :
    s_auth.logout_request.headers = [("vmware-api-session-id", "tok123")] ∧
    (Session.new "h" true).logout_request.headers = [("vmware-api-session-id", "")] :=
  ⟨((C6_session_header s_auth).1 "tok123" rfl).2,
    ((C6_session_header (Session.new "h" true)).2 rfl).2⟩

/-- C7: the claim says login requests exactly
https://<hostname>/rest/com/vmware/cis/session with no doubled slash.  The
endpoint literals passed to api_url! begin with a slash while the format
string already ends /rest/, so the built URL contains /rest//com/... : at
hostname "h" the URL differs from the claimed one. -/
theorem C7_counterexample :
    (Session.new "h" true).login_request_url = "https://h/rest//com/vmware/cis/session" ∧
    (Session.new "h" true).login_request_url ≠ "https://h/rest/com/vmware/cis/session" := by
  constructor
  · rfl
  · decide

/-- C7 (amended): for every session, login and logout request
https://<hostname>/rest//com/vmware/cis/session and login_status requests
https://<hostname>/rest//com/vmware/cis/session?~action=get — the
endpoint part carries a doubled slash after /rest. -/
theorem C7_request_urls (s : Session) :
    s.login_request_url = "https://" ++ s.hostname ++ "/rest//com/vmware/cis/session" ∧
    s.logout_request.url = "https://" ++ s.hostname ++ "/rest//com/vmware/cis/session" ∧
    s.login_status_request.url
      = "https://" ++ s.hostname ++ "/rest//com/vmware/cis/session?~action=get" := by
  have hlit : "/rest/" ++ "/com/vmware/cis/session" = "/rest//com/vmware/cis/session" := rfl
  have hlit2 : "/rest/" ++ "/com/vmware/cis/session?~action=get"
      = "/rest//com/vmware/cis/session?~action=get" := rfl
  refine ⟨?_, ?_, ?_⟩ <;>
    simp [Session.login_request_url, Session.logout_request, Session.login_status_request,
      Session.authenticated_request, api_url, String.append_assoc, hlit, hlit2]

/-- C8: every failing outcome of login, login_status or logout returns an
Err and leaves the session state exactly unchanged; the transport-error and
parse-error outcomes produce the Reqwest error. -/
theorem C8_no_mutation_on_error (s : Session) (username : String) (r : SendResult) :
    (∀ e, (s.login username r).1 = .error e → (s.login username r).2 = s) ∧
    (s.login_status r).2 = s ∧
    (∀ e, (s.logout r).1 = .error e → (s.logout r).2 = s) ∧
    (s.login username .transport_error).1 = .error .Reqwest ∧
    (s.login_status .transport_error).1 = .error .Reqwest ∧
    (s.logout .transport_error).1 = .error .Reqwest ∧
    (∀ resp : Response, r = .response resp → resp.status = 200 →
      resp.json_api_string = none → (s.login username r).1 = .error .Reqwest) ∧
    (∀ resp : Response, r = .response resp → resp.status = 200 →
      resp.json_api_login_status = none → (s.login_status r).1 = .error .Reqwest) := by
  refine ⟨?_, login_status_state_unchanged s r, ?_, rfl, rfl, rfl, ?_, ?_⟩
  · intro e he
    cases r with
    | transport_error => rfl
    | response resp =>
      by_cases h200 : resp.status = 200
      · cases hj : resp.json_api_string with
        | none => simp [Session.login, h200, hj]
        | some body => simp [Session.login, h200, hj] at he
      · by_cases h401 : resp.status = 401
        · simp [Session.login, h200, h401] at he
        · simp [Session.login, h200, h401]
  · intro e he
    cases r with
    | transport_error => rfl
    | response resp =>
      by_cases h200 : resp.status = 200
      · simp [Session.logout, h200] at he
      · by_cases h401 : resp.status = 401
        · simp [Session.logout, h200, h401] at he
        · simp [Session.logout, h200, h401]
  · rintro resp rfl h200 hj
    simp [Session.login, h200, hj]
  · rintro resp rfl h200 hj
    simp [Session.login_status, h200, hj]

/-- C8 witness: a 200 login response with an unparseable body, and a
transport error during logout, both leave an authenticated session
unchanged. -/
theorem C8_no_mutation_on_error_witness :
    (s_auth.login "alice" (.response resp200_noparse)).2 = s_auth ∧
    (s_auth.logout .transport_error).2 = s_auth :=
  ⟨(C8_no_mutation_on_error s_auth "alice" (.response resp200_noparse)).1 .Reqwest
      ((C8_no_mutation_on_error s_auth "alice" (.response resp200_noparse)).2.2.2.2.2.2.1
        resp200_noparse rfl rfl rfl),
    (C8_no_mutation_on_error s_auth "alice" .transport_error).2.2.1 .Reqwest rfl⟩

/-- C9: for every response status that is neither 200 nor 401, each of the
three operations fails with UnexpectedStatusCode carrying exactly that
status value. -/
theorem C9_unexpected_status (s : Session) (username : String) (resp : Response)
    (h200 : resp.status ≠ 200) (h401 : resp.status ≠ 401) :
    (s.login username (.response resp)).1 = .error (.UnexpectedStatusCode resp.status) ∧
    (s.login_status (.response resp)).1 = .error (.UnexpectedStatusCode resp.status) ∧
    (s.logout (.response resp)).1 = .error (.UnexpectedStatusCode resp.status) := by
  refine ⟨?_, ?_, ?_⟩ <;>
    simp [Session.login, Session.login_status, Session.logout, h200, h401]

/-- C9 witness: the theorem evaluated at a concrete 500 response. -/
theorem C9_unexpected_status_witness :
    (s_auth.login "alice" (.response resp500)).1 = .error (.UnexpectedStatusCode 500) ∧
    (s_auth.login_status (.response resp500)).1 = .error (.UnexpectedStatusCode 500) ∧
    (s_auth.logout (.response resp500)).1 = .error (.UnexpectedStatusCode 500) :=
  C9_unexpected_status s_auth "alice" resp500 (by decide) (by decide)

/-- C10: logout's result and final state are a function of the response
status alone — two responses with equal status but arbitrary bodies give
identical outcomes — and any 200 or 401 response succeeds regardless of its
body. -/
theorem C10_logout_ignores_body (s : Session) (resp1 resp2 : Response)
    (h : resp1.status = resp2.status) :
    s.logout (.response resp1) = s.logout (.response resp2) ∧
    (resp1.status = 200 ∨ resp1.status = 401 →
      (s.logout (.response resp1)).1 = .ok ()) := by
  constructor
  · simp [Session.logout, h]
  · rintro (h200 | h401)
    · simp [Session.logout, h200]
    · simp [Session.logout, h401]

/-- C10 witness: a 200 response with a parseable token body and a 200
response with an unparseable body give the same logout outcome, which
succeeds. -/
theorem C10_logout_ignores_body_witness :
    s_auth.logout (.response resp200_token) = s_auth.logout (.response resp200_noparse) ∧
    (s_auth.logout (.response resp200_token)).1 = .ok () :=
  ⟨(C10_logout_ignores_body s_auth resp200_token resp200_noparse rfl).1,
    (C10_logout_ignores_body s_auth resp200_token resp200_noparse rfl).2 (Or.inl rfl)⟩

end VSphere
